import Mathlib

/-!
Verification of the tzvetomir-portfolio Express/Prisma backend.

We shallowly embed the server's request handlers as pure Lean functions:
JavaScript strings become `List Char`, the Prisma tables become Lean lists
of structure values, random token generation and the current time become
explicit parameters, and each Express handler becomes a function from the
request data and the database state to an HTTP status, a JSON-shaped body,
and the new database state.
-/

namespace Portfolio

/-- JavaScript strings are modelled as lists of characters. -/
abbrev Str := List Char

/-- Code points of the ASCII whitespace characters removed by JavaScript
`String.prototype.trim` (tab, line feed, vertical tab, form feed,
carriage return, space). -/
def isJsSpaceN (n : Nat) : Bool :=
  (n == 32) || (n == 9) || (n == 10) || (n == 11) || (n == 12) || (n == 13)

/-- Whether a character is (ASCII) whitespace for `trim`. -/
def isJsSpace (c : Char) : Bool := isJsSpaceN c.toNat

/-- JavaScript `String.prototype.trim`: strip leading and trailing
whitespace. -/
def jsTrim (s : Str) : Str :=
  ((s.dropWhile isJsSpace).reverse.dropWhile isJsSpace).reverse

/-- ASCII lowercasing of one character: the action of JavaScript
`toLowerCase` (and of Zod's `.toLowerCase()`) on ASCII letters. -/
def lowerChar (c : Char) : Char :=
  if h : 65 ≤ c.toNat ∧ c.toNat ≤ 90 then
    Char.ofNatAux (c.toNat + 32) (Or.inl (by omega))
  else c

/-- ASCII lowercasing of a string. -/
def jsLower (s : Str) : Str := s.map lowerChar

theorem toNat_lowerChar (c : Char) :
    (lowerChar c).toNat =
      if 65 ≤ c.toNat ∧ c.toNat ≤ 90 then c.toNat + 32 else c.toNat := by
  unfold lowerChar
  split <;> simp_all [Char.ofNatAux, Char.toNat, UInt32.toNat, BitVec.ofNatLt]

theorem isJsSpaceN_of_ge (n : Nat) (h : 65 ≤ n) : isJsSpaceN n = false := by
  simp only [isJsSpaceN, Bool.or_eq_false_iff, beq_eq_false_iff_ne, ne_eq]
  omega

theorem isJsSpace_lowerChar (c : Char) : isJsSpace (lowerChar c) = isJsSpace c := by
  have h := toNat_lowerChar c
  by_cases hc : 65 ≤ c.toNat ∧ c.toNat ≤ 90
  · rw [if_pos hc] at h
    simp only [isJsSpace, h]
    rw [isJsSpaceN_of_ge _ (by omega), isJsSpaceN_of_ge _ (by omega)]
  · rw [if_neg hc] at h
    simp only [isJsSpace, h]

/-- Lowercasing commutes with trimming: lowering never changes whether a
character is whitespace. -/
theorem jsLower_jsTrim (s : Str) : jsLower (jsTrim s) = jsTrim (jsLower s) := by
  have hsp : isJsSpace ∘ lowerChar = isJsSpace := funext isJsSpace_lowerChar
  simp only [jsLower, jsTrim, List.dropWhile_map, ← List.map_reverse, hsp]

theorem length_jsLower (s : Str) : (jsLower s).length = s.length := by
  simp [jsLower]

theorem jsTrim_lower_eq_of_lower_eq {s₁ s₂ : Str} (h : jsLower s₁ = jsLower s₂) :
    jsLower (jsTrim s₁) = jsLower (jsTrim s₂) := by
  rw [jsLower_jsTrim, jsLower_jsTrim, h]

/-! ## Zod validation (server/src/utils/validation.js)

Each schema is a chain of checks run in order on the field value; every
failing check contributes one issue `(field, message)`.  The `validate`
helper flattens the issue list into a `{ field: message }` object, where
a later issue for the same field overwrites an earlier one. -/

/-- One Zod issue: the field path and its message. -/
abbrev Issue := String × String

/-- The Zod regex `/^[^<>]*$/`: no angle brackets anywhere. -/
def noAngle (s : Str) : Bool := s.all (fun c => !(c == '<' || c == '>'))

/-- Issues produced by the chain `.trim().min(1,…).max(80,…).regex(…)`
on the guestbook `name` field. -/
def gbNameIssues (s : Str) : List String :=
  let t := jsTrim s
  (if t.length < 1 then ["Name is required"] else []) ++
  (if t.length > 80 then ["Name must be 80 characters or less"] else []) ++
  (if noAngle t then [] else ["Name contains invalid characters"])

/-- Issues for the guestbook `message` field
(`.trim().min(1,…).max(200,…).regex(…)`). -/
def gbMessageIssues (s : Str) : List String :=
  let t := jsTrim s
  (if t.length < 1 then ["Message is required"] else []) ++
  (if t.length > 200 then ["Message must be 200 characters or less"] else []) ++
  (if noAngle t then [] else ["Message contains invalid characters"])

/-- Issues for an email field (`.trim().email(…).max(255,…).toLowerCase()`).
Zod's email regex is a third-party library detail, so its acceptance set is
an explicit parameter `isEmail` of the model. -/
def emailIssues (isEmail : Str → Bool) (s : Str) : List String :=
  let t := jsTrim s
  (if isEmail t then [] else ["Please provide a valid email address"]) ++
  (if t.length > 255 then ["Email must be 255 characters or less"] else [])

/-- Issues for the contact `name` field (`.trim().min(1,…).max(100,…)`). -/
def ctNameIssues (s : Str) : List String :=
  let t := jsTrim s
  (if t.length < 1 then ["Name is required"] else []) ++
  (if t.length > 100 then ["Name must be 100 characters or less"] else [])

/-- Issues for the contact `subject` field (`.trim().min(1,…).max(200,…)`). -/
def ctSubjectIssues (s : Str) : List String :=
  let t := jsTrim s
  (if t.length < 1 then ["Subject is required"] else []) ++
  (if t.length > 200 then ["Subject must be 200 characters or less"] else [])

/-- Issues for the contact `message` field (`.trim().min(1,…).max(5000,…)`). -/
def ctMessageIssues (s : Str) : List String :=
  let t := jsTrim s
  (if t.length < 1 then ["Message is required"] else []) ++
  (if t.length > 5000 then ["Message must be 5000 characters or less"] else [])

/-- Run a field's check chain: a missing field yields Zod's `Required`
issue, a present one the issues of its string checks. -/
def fieldIssues (field : String) (checks : Str → List String) (v : Option Str) :
    List Issue :=
  match v with
  | none => [(field, "Required")]
  | some s => (checks s).map (fun m => (field, m))

/-- Set a key in a `{ field: message }` object: overwrite in place if the
key exists, append otherwise (JavaScript `errors[field] = issue.message`). -/
def errMapSet (m : List Issue) (k v : String) : List Issue :=
  match m with
  | [] => [(k, v)]
  | (k', v') :: rest => if k' = k then (k, v) :: rest else (k', v') :: errMapSet rest k v

/-- The `validate` helper's flattening loop:
`result.error.issues.forEach(issue => errors[field] = issue.message)`. -/
def flattenIssues (l : List Issue) : List Issue :=
  l.foldl (fun m kv => errMapSet m kv.1 kv.2) []

/-- Look a field up in a flattened error object. -/
def lookupKey (m : List Issue) (k : String) : Option String :=
  (m.find? (fun p => p.1 == k)).map Prod.snd

/-- The message of the last issue raised for a field. -/
def lastValue (l : List Issue) (k : String) : Option String :=
  (l.reverse.find? (fun p => p.1 == k)).map Prod.snd

theorem lookupKey_errMapSet (m : List Issue) (k₀ v₀ k : String) :
    lookupKey (errMapSet m k₀ v₀) k =
      if k₀ = k then some v₀ else lookupKey m k := by
  induction m with
  | nil =>
    by_cases h : k₀ = k
    · have hb : (k₀ == k) = true := by simp [h]
      simp [errMapSet, lookupKey, List.find?, h, hb]
    · have hb : (k₀ == k) = false := by simp [h]
      simp [errMapSet, lookupKey, List.find?, h, hb]
  | cons p rest ih =>
    obtain ⟨k', v'⟩ := p
    by_cases h1 : k' = k₀
    · subst h1
      by_cases h2 : k' = k
      · have hb : (k' == k) = true := by simp [h2]
        simp [errMapSet, lookupKey, List.find?, h2, hb]
      · have hb : (k' == k) = false := by simp [h2]
        simp [errMapSet, lookupKey, List.find?, h2, hb]
    · by_cases h2 : k' = k
      · subst h2
        have hk : ¬ k₀ = k' := fun h => h1 h.symm
        have hb : (k' == k') = true := by simp
        simp [errMapSet, lookupKey, List.find?, h1, hk, hb]
      · have hb : (k' == k) = false := by simp [h2]
        simp only [errMapSet, if_neg h1, lookupKey, List.find?, hb]
        simpa [lookupKey] using ih

theorem lastValue_cons (p : Issue) (rest : List Issue) (k : String) :
    lastValue (p :: rest) k =
      (lastValue rest k).or (if p.1 = k then some p.2 else none) := by
  simp only [lastValue, List.reverse_cons, List.find?_append]
  by_cases h : p.1 = k
  · have hb : (p.1 == k) = true := by simp [h]
    cases hf : (rest.reverse.find? (fun q => q.1 == k)) <;>
      simp [List.find?, h, hb, hf, Option.or]
  · have hb : (p.1 == k) = false := by simp [h]
    cases hf : (rest.reverse.find? (fun q => q.1 == k)) <;>
      simp [List.find?, h, hb, hf, Option.or]

theorem lookupKey_foldl (l : List Issue) (m : List Issue) (k : String) :
    lookupKey (l.foldl (fun acc kv => errMapSet acc kv.1 kv.2) m) k =
      (lastValue l k).or (lookupKey m k) := by
  induction l generalizing m with
  | nil => simp [lastValue, Option.or]
  | cons p rest ih =>
    simp only [List.foldl_cons]
    rw [ih, lastValue_cons, lookupKey_errMapSet]
    by_cases h : p.1 = k
    · cases hl : lastValue rest k <;> simp [h, hl, Option.or]
    · cases hl : lastValue rest k <;> simp [h, hl, Option.or]

/-- The flattened error object maps each field to the message of the last
issue raised for it. -/
theorem lookupKey_flattenIssues (l : List Issue) (k : String) :
    lookupKey (flattenIssues l) k = lastValue l k := by
  rw [flattenIssues, lookupKey_foldl]
  cases hl : lastValue l k <;> simp [hl, lookupKey, Option.or]

/-- A field is a key of the flattened error object exactly when some issue
was raised for it. -/
theorem lookupKey_flattenIssues_isSome (l : List Issue) (k : String) :
    (lookupKey (flattenIssues l) k).isSome ↔ k ∈ l.map Prod.fst := by
  rw [lookupKey_flattenIssues, lastValue]
  have hmap : ∀ o : Option Issue, (Option.map Prod.snd o).isSome = o.isSome := by
    intro o
    cases o <;> rfl
  rw [hmap, List.find?_isSome]
  simp only [List.mem_reverse, List.mem_map, beq_iff_eq]

/-! ### Schema-level validation (`validate(schema, req.body)`) -/

/-- Request body for `POST /api/guestbook`; a missing or non-string field
is `none`. -/
structure GuestbookBody where
  name : Option Str
  message : Option Str

/-- Request body for `POST /api/contact`. -/
structure ContactBody where
  name : Option Str
  email : Option Str
  subject : Option Str
  message : Option Str

/-- Parsed guestbook data (fields trimmed by the schema). -/
structure GuestbookData where
  name : Str
  message : Str
deriving DecidableEq

/-- Parsed contact data (fields trimmed, email lowercased). -/
structure ContactData where
  name : Str
  email : Str
  subject : Str
  message : Str
deriving DecidableEq

/-- All issues of the guestbook schema, in field order. -/
def guestbookIssues (b : GuestbookBody) : List Issue :=
  fieldIssues "name" gbNameIssues b.name ++
  fieldIssues "message" gbMessageIssues b.message

/-- All issues of the newsletter schema (single `email` field). -/
def newsletterIssues (isEmail : Str → Bool) (email : Option Str) : List Issue :=
  fieldIssues "email" (emailIssues isEmail) email

/-- All issues of the contact schema, in field order. -/
def contactIssues (isEmail : Str → Bool) (b : ContactBody) : List Issue :=
  fieldIssues "name" ctNameIssues b.name ++
  fieldIssues "email" (emailIssues isEmail) b.email ++
  fieldIssues "subject" ctSubjectIssues b.subject ++
  fieldIssues "message" ctMessageIssues b.message

/-- `validate(guestbookSchema, body)`: flattened error object on failure,
parsed data on success. -/
def validateGuestbook (b : GuestbookBody) : Except (List Issue) GuestbookData :=
  if guestbookIssues b = [] then
    .ok ⟨jsTrim ((b.name).getD []), jsTrim ((b.message).getD [])⟩
  else
    .error (flattenIssues (guestbookIssues b))

/-- `validate(newsletterSchema, body)`: the parsed email is trimmed and
lowercased. -/
def validateNewsletter (isEmail : Str → Bool) (email : Option Str) :
    Except (List Issue) Str :=
  if newsletterIssues isEmail email = [] then
    .ok (jsLower (jsTrim (email.getD [])))
  else
    .error (flattenIssues (newsletterIssues isEmail email))

/-- `validate(contactSchema, body)`. -/
def validateContact (isEmail : Str → Bool) (b : ContactBody) :
    Except (List Issue) ContactData :=
  if contactIssues isEmail b = [] then
    .ok ⟨jsTrim ((b.name).getD []), jsLower (jsTrim ((b.email).getD [])),
         jsTrim ((b.subject).getD []), jsTrim ((b.message).getD [])⟩
  else
    .error (flattenIssues (contactIssues isEmail b))

/-! ## Data model (Prisma schema, as used by the routes) -/

/-- A `GuestbookEntry` row. -/
structure GuestbookEntry where
  id : Nat
  name : Str
  message : Str
  ipHash : Str
  visible : Bool
  createdAt : Nat
deriving DecidableEq

/-- A `NewsletterSub` row. -/
structure NewsletterSub where
  id : Nat
  email : Str
  confirmed : Bool
  confirmToken : Option Str
  unsubToken : Option Str
  createdAt : Nat
  confirmedAt : Option Nat
  unsubAt : Option Nat
deriving DecidableEq

/-- A `ContactMessage` row. -/
structure ContactMessage where
  id : Nat
  name : Str
  email : Str
  subject : Str
  message : Str
  read : Bool
  createdAt : Nat
deriving DecidableEq

/-- Prisma `update where <key>`: rewrite the rows selected by `p`. -/
def updateWhere (p : α → Bool) (f : α → α) (l : List α) : List α :=
  l.map (fun x => if p x then f x else x)

/-! ## JSON responses -/

/-- A JSON scalar, as placed in response objects. -/
inductive JVal
  | str (s : Str)
  | num (n : Nat)
  | bool (b : Bool)
  | null
deriving DecidableEq

/-- The body of an HTTP response, one constructor per response shape the
routes produce. -/
inductive Body
  /-- `{ error: { field: message, … } }` from a validation failure. -/
  | fieldErrors (e : List Issue)
  /-- `{ error: "…" }`. -/
  | errorMsg (m : String)
  /-- Newsletter `{ message, status }`. -/
  | msgStatus (message : String) (status : String)
  /-- Guestbook `{ entry: {…} }`. -/
  | entryObj (entry : List (String × JVal))
  /-- List responses: `{ entries: […] }` / `{ subscribers: […] }`. -/
  | rows (rows : List (List (String × JVal)))
  /-- Admin guestbook PATCH: `{ entry: {id, name, visible}, message }`. -/
  | toggleObj (id : Nat) (name : Str) (visible : Bool) (message : String)
  /-- Login success `{ token, expiresIn, message }`; the signed token is
  modelled by its payload `{ username, role }`. -/
  | loginOk (username : Str) (role : String) (expiresIn : String)
  /-- Contact success `{ message, id }`. -/
  | contactOk (id : Nat) (message : String)
deriving DecidableEq

/-- An HTTP response: status code and JSON body. -/
structure Resp where
  status : Nat
  body : Body
deriving DecidableEq

/-- A handler outcome: the response together with the new database state. -/
structure Out (σ : Type) where
  db : σ
  resp : Resp

/-! ## Newsletter routes (server/src/routes/newsletter.js)

`generateToken()` draws fresh randomness, and row creation draws a fresh
autoincrement id and the current time; these effects are passed in as the
explicit parameters `freshConfirm`, `freshUnsub`, `newId`, `now`. -/

/-- `POST /api/newsletter`: the four-branch subscribe handler. -/
def subscribePost (isEmail : Str → Bool) (db : List NewsletterSub)
    (body : Option Str) (freshConfirm freshUnsub : Str) (newId now : Nat) :
    Out (List NewsletterSub) :=
  match validateNewsletter isEmail body with
  | .error e => ⟨db, 400, .fieldErrors e⟩
  | .ok email =>
    match db.find? (fun s => s.email == email) with
    | some existing =>
      -- Case A: already confirmed and active
      if existing.confirmed && existing.unsubAt.isNone then
        ⟨db, 200, .msgStatus "You\x27re already subscribed! До скоро! (See you soon!)"
          "already_subscribed"⟩
      -- Case B: previously unsubscribed, re-subscribe
      else if existing.unsubAt.isSome then
        ⟨updateWhere (fun s => s.email == email)
            (fun s => { s with confirmed := false, confirmToken := some freshConfirm,
                               unsubToken := some freshUnsub, unsubAt := none,
                               confirmedAt := none }) db,
          200, .msgStatus "Welcome back! Please check your email to re-confirm."
            "resubscribed"⟩
      -- Case C: exists but never confirmed, regenerate the confirm token
      else if !existing.confirmed then
        ⟨updateWhere (fun s => s.email == email)
            (fun s => { s with confirmToken := some freshConfirm }) db,
          200, .msgStatus "Confirmation email re-sent! Check your inbox."
            "confirmation_resent"⟩
      -- fallthrough to the unconditional create at the end of the handler
      -- (unreachable when a row exists: A, B, C cover every state)
      else
        ⟨db ++ [⟨newId, email, false, some freshConfirm, some freshUnsub, now, none, none⟩],
          201, .msgStatus "Almost there! Check your email to confirm your subscription."
            "pending_confirmation"⟩
    -- Case D: brand new subscriber
    | none =>
        ⟨db ++ [⟨newId, email, false, some freshConfirm, some freshUnsub, now, none, none⟩],
          201, .msgStatus "Almost there! Check your email to confirm your subscription."
            "pending_confirmation"⟩

/-- `GET /api/newsletter/confirm/:token`. -/
def confirmGet (db : List NewsletterSub) (token : Str) (now : Nat) :
    Out (List NewsletterSub) :=
  match db.find? (fun s => s.confirmToken == some token && !s.confirmed) with
  | none => ⟨db, 404, .errorMsg "Invalid or expired confirmation link."⟩
  | some sub =>
      ⟨updateWhere (fun s => s.id == sub.id)
          (fun s => { s with confirmed := true, confirmedAt := some now,
                             confirmToken := none }) db,
        200, .msgStatus "Welcome aboard! 🐾 До скоро! (See you soon!)" "confirmed"⟩

/-- `DELETE /api/newsletter/:token`. -/
def unsubDelete (db : List NewsletterSub) (token : Str) (now : Nat) :
    Out (List NewsletterSub) :=
  match db.find? (fun s => s.unsubToken == some token && s.unsubAt.isNone) with
  | none => ⟨db, 404, .errorMsg "Invalid unsubscribe link or already unsubscribed."⟩
  | some sub =>
      ⟨updateWhere (fun s => s.id == sub.id) (fun s => { s with unsubAt := some now }) db,
        200, .msgStatus "You\x27ve been unsubscribed. Sorry to see you go!" "unsubscribed"⟩

/-! ## Guestbook routes (server/src/routes/guestbook.js) -/

/-- Insert into a list sorted descending by `key`. -/
def insertDesc (key : α → Nat) (x : α) : List α → List α
  | [] => [x]
  | y :: ys => if key y ≤ key x then x :: y :: ys else y :: insertDesc key x ys

/-- `orderBy: { createdAt: "desc" }`. -/
def sortDesc (key : α → Nat) : List α → List α
  | [] => []
  | x :: xs => insertDesc key x (sortDesc key xs)

/-- The `select` of the public guestbook routes:
`{ id, name, message, createdAt }` — no `ipHash`, no `visible`. -/
def publicEntryJson (e : GuestbookEntry) : List (String × JVal) :=
  [("id", .num e.id), ("name", .str e.name),
   ("message", .str e.message), ("createdAt", .num e.createdAt)]

/-- The `select` of `GET /api/admin/guestbook`:
`{ id, name, message, visible, ipHash, createdAt }`. -/
def adminEntryJson (e : GuestbookEntry) : List (String × JVal) :=
  [("id", .num e.id), ("name", .str e.name), ("message", .str e.message),
   ("visible", .bool e.visible), ("ipHash", .str e.ipHash),
   ("createdAt", .num e.createdAt)]

/-- `GET /api/guestbook`: visible entries only, newest first. -/
def guestbookGet (db : List GuestbookEntry) : Out (List GuestbookEntry) :=
  ⟨db, 200, .rows ((sortDesc (fun e => e.createdAt) (db.filter (fun e => e.visible))).map
    publicEntryJson)⟩

/-- `POST /api/guestbook`: validate, then create a visible entry carrying
the SHA-256 hash of the client IP (the hash value is a parameter). -/
def guestbookPost (db : List GuestbookEntry) (b : GuestbookBody) (ipHash : Str)
    (newId now : Nat) : Out (List GuestbookEntry) :=
  match validateGuestbook b with
  | .error e => ⟨db, 400, .fieldErrors e⟩
  | .ok d =>
    let entry : GuestbookEntry := ⟨newId, d.name, d.message, ipHash, true, now⟩
    ⟨db ++ [entry], 201, .entryObj (publicEntryJson entry)⟩

/-! ## Admin routes (server/src/routes/admin.js) -/

/-- `GET /api/admin/guestbook`: ALL entries, newest first, with the admin
`select` (which includes `ipHash`). -/
def adminGuestbookGet (db : List GuestbookEntry) : Out (List GuestbookEntry) :=
  ⟨db, 200, .rows ((sortDesc (fun e => e.createdAt) db).map adminEntryJson)⟩

/-- `PATCH /api/admin/guestbook/:id`: flip the entry's `visible` flag and
report the new state. -/
def adminGuestbookToggle (db : List GuestbookEntry) (id : Nat) :
    Out (List GuestbookEntry) :=
  match db.find? (fun e => e.id == id) with
  | none => ⟨db, 404, .errorMsg "Entry not found."⟩
  | some e =>
      ⟨updateWhere (fun x => x.id == id) (fun x => { x with visible := !x.visible }) db,
        200, .toggleObj e.id e.name (!e.visible)
          (if !e.visible then "Entry is now visible." else "Entry is now hidden.")⟩

/-- The admin configuration drawn from environment variables; an empty
string models an unset variable (both are falsy in JavaScript). -/
structure AdminCfg where
  adminUsername : Str
  passwordHash : Str
  jwtSecret : Str
  expiresIn : String

/-- `ADMIN_USERNAME = process.env.ADMIN_USERNAME || "admin"`. -/
def adminUsernameFrom (env : Str) : Str :=
  if env = [] then "admin".toList else env

/-- `POST /api/admin/login`.  `bcryptOk password hash` stands for
`bcrypt.compare(password, hash)`; the issued JWT is modelled by its
payload. -/
def login (bcryptOk : Str → Str → Bool) (cfg : AdminCfg)
    (username password : Str) : Resp :=
  if cfg.passwordHash = [] ∨ cfg.jwtSecret = [] then
    ⟨500, .errorMsg "Admin login is not configured on this server."⟩
  else if username = [] ∨ password = [] then
    ⟨400, .errorMsg "Username and password are required."⟩
  else if jsLower username ≠ jsLower cfg.adminUsername then
    ⟨401, .errorMsg "Invalid credentials."⟩
  else if bcryptOk password cfg.passwordHash then
    ⟨200, .loginOk cfg.adminUsername "admin" cfg.expiresIn⟩
  else
    ⟨401, .errorMsg "Invalid credentials."⟩

/-! ## Contact route (server/src/routes/contact.js) -/

/-- `POST /api/contact`: validate, then store the message.  The `read`
flag of a new row defaults to false (the Prisma schema default; the spec
counts fresh messages as unread). -/
def contactPost (isEmail : Str → Bool) (db : List ContactMessage) (b : ContactBody)
    (newId now : Nat) : Out (List ContactMessage) :=
  match validateContact isEmail b with
  | .error e => ⟨db, 400, .fieldErrors e⟩
  | .ok d =>
      let row : ContactMessage := ⟨newId, d.name, d.email, d.subject, d.message, false, now⟩
      ⟨db ++ [row], 201,
        .contactOk newId "Message received! I\x27ll get back to you soon. До скоро!"⟩

/-! ## Rate limiting (server/src/middleware/rateLimiter.js, admin.js)

`express-rate-limit` keeps, per client IP, a hit counter that resets
`windowMs` after the window opened; a request is rejected with the
configured message when the counter would exceed `max`. -/

/-- One `rateLimit({...})` configuration. -/
structure LimiterCfg where
  windowMs : Nat
  max : Nat
  message : String
deriving DecidableEq

/-- The baseline limiter on all `/api` routes: 100 per 15 minutes. -/
def generalLimiter : LimiterCfg :=
  ⟨15 * 60 * 1000, 100, "Too many requests. Please try again in a few minutes."⟩

/-- `POST /api/guestbook`: 3 per hour. -/
def guestbookWriteLimiter : LimiterCfg :=
  ⟨60 * 60 * 1000, 3, "You\x27ve signed the guestbook recently. Come back in a bit!"⟩

/-- `POST /api/newsletter`: 5 per hour. -/
def newsletterLimiter : LimiterCfg :=
  ⟨60 * 60 * 1000, 5, "Too many subscribe attempts. Please try again later."⟩

/-- `POST /api/contact`: 3 per hour. -/
def contactLimiter : LimiterCfg :=
  ⟨60 * 60 * 1000, 3, "You\x27ve sent a few messages already. I\x27ll get back to you soon!"⟩

/-- `POST /api/admin/login`: 5 per 15 minutes. -/
def loginLimiter : LimiterCfg :=
  ⟨15 * 60 * 1000, 5, "Too many login attempts. Try again in 15 minutes."⟩

/-- The limiter store: per client IP, the end of the current window and
the hits counted in it. -/
abbrev LimiterState := List (String × Nat × Nat)

/-- Read an IP's record. -/
def lookupIp (st : LimiterState) (ip : String) : Option (Nat × Nat) :=
  (st.find? (fun r => r.1 == ip)).map Prod.snd

/-- Write an IP's record. -/
def setIp (st : LimiterState) (ip : String) (v : Nat × Nat) : LimiterState :=
  match st with
  | [] => [(ip, v)]
  | r :: rest => if r.1 = ip then (ip, v) :: rest else r :: setIp rest ip v

/-- Process one request at time `now`: `none` means the request passes on
to the handler, `some (429, msg)` that the limiter rejects it. -/
def hit (cfg : LimiterCfg) (st : LimiterState) (ip : String) (now : Nat) :
    Option (Nat × String) × LimiterState :=
  match lookupIp st ip with
  | none =>
      (if 1 ≤ cfg.max then none else some (429, cfg.message),
       setIp st ip (now + cfg.windowMs, 1))
  | some (reset, hits) =>
      if reset ≤ now then
        (if 1 ≤ cfg.max then none else some (429, cfg.message),
         setIp st ip (now + cfg.windowMs, 1))
      else
        (if hits + 1 ≤ cfg.max then none else some (429, cfg.message),
         setIp st ip (reset, hits + 1))

/-- Process a sequence of request times from one IP. -/
def runHits (cfg : LimiterCfg) (st : LimiterState) (ip : String) :
    List Nat → List (Option (Nat × String))
  | [] => []
  | t :: ts =>
      let r := hit cfg st ip t
      r.1 :: runHits cfg r.2 ip ts

theorem lookupIp_setIp_same (st : LimiterState) (ip : String) (v : Nat × Nat) :
    lookupIp (setIp st ip v) ip = some v := by
  induction st with
  | nil => simp [setIp, lookupIp, List.find?]
  | cons r rest ih =>
    by_cases h : r.1 = ip
    · have hb : (ip == ip) = true := by simp
      simp [setIp, lookupIp, List.find?, h, hb]
    · have hb : (r.1 == ip) = false := by simp [h]
      simp only [setIp, if_neg h, lookupIp, List.find?, hb]
      simpa [lookupIp] using ih

theorem runHits_in_window (cfg : LimiterCfg) (ip : String) (r : Nat) :
    ∀ (ts : List Nat) (st : LimiterState) (j : Nat),
      lookupIp st ip = some (r, j) → (∀ t ∈ ts, t < r) →
      runHits cfg st ip ts =
        (List.range ts.length).map
          (fun i => if j + i + 1 ≤ cfg.max then none else some (429, cfg.message)) := by
  intro ts
  induction ts with
  | nil => intro st j _ _; simp [runHits]
  | cons t rest ih =>
    intro st j hrec hts
    have hlt : t < r := hts t (by simp)
    have hnr : ¬ r ≤ t := by omega
    simp only [runHits, hit, hrec, if_neg hnr]
    have hrest := ih (setIp st ip (r, j + 1)) (j + 1)
      (lookupIp_setIp_same st ip (r, j + 1))
      (fun t' ht' => hts t' (by simp [ht']))
    rw [hrest]
    simp only [List.length_cons, List.range_succ_eq_map, List.map_cons, List.map_map]
    congr 1
    apply List.map_congr_left
    intro i _
    have harith : j + 1 + i + 1 = j + (i + 1) + 1 := by omega
    simp [Function.comp, harith]

theorem runHits_fresh (cfg : LimiterCfg) (st : LimiterState) (ip : String)
    (t0 : Nat) (ts : List Nat) (hfresh : lookupIp st ip = none)
    (hts : ∀ t ∈ ts, t0 ≤ t ∧ t < t0 + cfg.windowMs) :
    runHits cfg st ip ts =
      (List.range ts.length).map
        (fun i => if i + 1 ≤ cfg.max then none else some (429, cfg.message)) := by
  cases ts with
  | nil => simp [runHits]
  | cons t rest =>
    have ht := hts t (by simp)
    simp only [runHits, hit, hfresh]
    have hrest := runHits_in_window cfg ip (t + cfg.windowMs) rest
      (setIp st ip (t + cfg.windowMs, 1)) 1
      (lookupIp_setIp_same st ip (t + cfg.windowMs, 1))
      (fun t' ht' => by
        have := hts t' (by simp [ht'])
        omega)
    rw [hrest]
    simp only [List.length_cons, List.range_succ_eq_map, List.map_cons, List.map_map]
    congr 1
    apply List.map_congr_left
    intro i _
    have harith : 1 + i + 1 = i + 1 + 1 := by omega
    simp [Function.comp, harith]

/-! ## Generic lemmas about `updateWhere` and `find?` -/

theorem length_updateWhere (p : α → Bool) (f : α → α) (l : List α) :
    (updateWhere p f l).length = l.length := by
  simp [updateWhere]

theorem find?_updateWhere (p : α → Bool) (f : α → α) (l : List α)
    (hpf : ∀ x, p (f x) = p x) :
    (updateWhere p f l).find? p = (l.find? p).map f := by
  induction l with
  | nil => simp [updateWhere]
  | cons x xs ih =>
    have hcons : updateWhere p f (x :: xs) =
        (if p x then f x else x) :: updateWhere p f xs := rfl
    rw [hcons]
    by_cases hx : p x = true
    · rw [if_pos hx, List.find?_cons_of_pos _ (by rw [hpf]; exact hx),
        List.find?_cons_of_pos _ hx]
      rfl
    · have hx' : p x = false := by simpa using hx
      rw [if_neg (by simp [hx']), List.find?_cons_of_neg _ (by simp [hx']),
        List.find?_cons_of_neg _ (by simp [hx'])]
      exact ih

theorem mem_updateWhere_of_neg (p : α → Bool) (f : α → α) (l : List α)
    (x : α) (hx : x ∈ l) (hp : p x = false) : x ∈ updateWhere p f l := by
  have : (if p x then f x else x) ∈ updateWhere p f l :=
    List.mem_map_of_mem _ hx
  simpa [hp] using this

theorem mem_updateWhere (p : α → Bool) (f : α → α) (l : List α)
    (y : α) (hy : y ∈ updateWhere p f l) :
    ∃ x ∈ l, y = if p x then f x else x := by
  obtain ⟨x, hx, rfl⟩ := List.mem_map.mp hy
  exact ⟨x, hx, rfl⟩

/-- Email uniqueness (the Prisma `@unique` constraint on
`NewsletterSub.email`). -/
def emailsUnique (db : List NewsletterSub) : Prop :=
  ∀ a ∈ db, ∀ b ∈ db, a.email = b.email → a = b

/-- Id uniqueness (the Prisma autoincrement primary key). -/
def idsUnique (db : List NewsletterSub) : Prop :=
  ∀ a ∈ db, ∀ b ∈ db, a.id = b.id → a = b

/-- A confirm token identifies at most one row (tokens are 32 random
bytes, generated fresh on every write). -/
def confirmTokenAtMostOne (db : List NewsletterSub) (tok : Str) : Prop :=
  ∀ a ∈ db, ∀ b ∈ db, a.confirmToken = some tok → b.confirmToken = some tok → a = b

/-! ## Claims -/

/-- Case D of the subscribe handler: no stored row for the email. -/
theorem subscribePost_caseD
    (isEmail : Str → Bool) (db : List NewsletterSub) (body : Option Str)
    (email f1 f2 : Str) (newId now : Nat)
    (hval : validateNewsletter isEmail body = .ok email)
    (hfind : db.find? (fun s => s.email == email) = none) :
    subscribePost isEmail db body f1 f2 newId now =
      ⟨db ++ [⟨newId, email, false, some f1, some f2, now, none, none⟩],
       201, .msgStatus "Almost there! Check your email to confirm your subscription."
         "pending_confirmation"⟩ := by
  simp [subscribePost, hval, hfind]

/-- Case A of the subscribe handler: confirmed, not unsubscribed. -/
theorem subscribePost_caseA
    (isEmail : Str → Bool) (db : List NewsletterSub) (body : Option Str)
    (email f1 f2 : Str) (newId now : Nat)
    (hval : validateNewsletter isEmail body = .ok email)
    (ex : NewsletterSub)
    (hfind : db.find? (fun s => s.email == email) = some ex)
    (hconf : ex.confirmed = true) (hunsub : ex.unsubAt = none) :
    subscribePost isEmail db body f1 f2 newId now =
      ⟨db, 200, .msgStatus "You\x27re already subscribed! До скоро! (See you soon!)"
        "already_subscribed"⟩ := by
  simp [subscribePost, hval, hfind, hconf, hunsub, Option.isNone]

/-- Case B of the subscribe handler: the row carries an unsubscribe
timestamp; it is reset to pending with fresh tokens. -/
theorem subscribePost_caseB
    (isEmail : Str → Bool) (db : List NewsletterSub) (body : Option Str)
    (email f1 f2 : Str) (newId now : Nat)
    (hval : validateNewsletter isEmail body = .ok email)
    (ex : NewsletterSub)
    (hfind : db.find? (fun s => s.email == email) = some ex)
    (hunsub : ex.unsubAt ≠ none) :
    (subscribePost isEmail db body f1 f2 newId now).db.find?
        (fun s => s.email == email) =
      some { ex with
        confirmed := false, confirmToken := some f1, unsubToken := some f2,
        unsubAt := none, confirmedAt := none } ∧
    (∀ s ∈ db, (s.email == email) = false →
      s ∈ (subscribePost isEmail db body f1 f2 newId now).db) ∧
    (subscribePost isEmail db body f1 f2 newId now).db.length = db.length ∧
    (subscribePost isEmail db body f1 f2 newId now).resp =
      ⟨200, .msgStatus "Welcome back! Please check your email to re-confirm."
        "resubscribed"⟩ := by
  have hus : ex.unsubAt.isSome = true := by
    cases h : ex.unsubAt
    · exact absurd h hunsub
    · rfl
  have hnA : (ex.confirmed && ex.unsubAt.isNone) = false := by
    cases h : ex.unsubAt
    · exact absurd h hunsub
    · simp [h]
  simp only [subscribePost, hval, hfind, hnA, Bool.false_eq_true, if_false, hus, if_true]
  refine ⟨?_, ?_, ?_, ?_⟩
  · have h1 := find?_updateWhere (fun s : NewsletterSub => s.email == email)
      (fun s => { s with
        confirmed := false, confirmToken := some f1, unsubToken := some f2,
        unsubAt := none, confirmedAt := none }) db (fun x => rfl)
    rw [h1, hfind]
    rfl
  · intro s hs hne
    exact mem_updateWhere_of_neg _ _ _ s hs hne
  · exact length_updateWhere _ _ _
  · trivial

/-- Case C of the subscribe handler: unconfirmed, not unsubscribed; only
the confirmation token is regenerated. -/
theorem subscribePost_caseC
    (isEmail : Str → Bool) (db : List NewsletterSub) (body : Option Str)
    (email f1 f2 : Str) (newId now : Nat)
    (hval : validateNewsletter isEmail body = .ok email)
    (ex : NewsletterSub)
    (hfind : db.find? (fun s => s.email == email) = some ex)
    (hconf : ex.confirmed = false) (hunsub : ex.unsubAt = none) :
    (subscribePost isEmail db body f1 f2 newId now).db.find?
        (fun s => s.email == email) =
      some { ex with confirmToken := some f1 } ∧
    (∀ s ∈ db, (s.email == email) = false →
      s ∈ (subscribePost isEmail db body f1 f2 newId now).db) ∧
    (subscribePost isEmail db body f1 f2 newId now).db.length = db.length ∧
    (subscribePost isEmail db body f1 f2 newId now).resp =
      ⟨200, .msgStatus "Confirmation email re-sent! Check your inbox."
        "confirmation_resent"⟩ := by
  have hnA : (ex.confirmed && ex.unsubAt.isNone) = false := by simp [hconf]
  have hnB : ex.unsubAt.isSome = false := by simp [hunsub]
  have hnot : (!ex.confirmed) = true := by simp [hconf]
  simp only [subscribePost, hval, hfind, hnA, Bool.false_eq_true, if_false, hnB, hnot,
    if_true]
  refine ⟨?_, ?_, ?_, ?_⟩
  · have h1 := find?_updateWhere (fun s : NewsletterSub => s.email == email)
      (fun s => { s with confirmToken := some f1 }) db (fun x => rfl)
    rw [h1, hfind]
    rfl
  · intro s hs hne
    exact mem_updateWhere_of_neg _ _ _ s hs hne
  · exact length_updateWhere _ _ _
  · trivial

/-- C1: for a subscribe request that passes email validation, the handler
takes exactly one of four branches keyed to the stored row for that email:
no row → create a pending row with fresh tokens, 201 `pending_confirmation`;
confirmed row without unsubscribe timestamp → no write, `already_subscribed`;
row with unsubscribe timestamp → reset to pending with fresh tokens,
`resubscribed`; unconfirmed row without unsubscribe timestamp → only the
confirmation token is regenerated, `confirmation_resent`. -/
theorem newsletter_subscribe_four_branches
    (isEmail : Str → Bool) (db : List NewsletterSub) (body : Option Str)
    (email f1 f2 : Str) (newId now : Nat)
    (hval : validateNewsletter isEmail body = .ok email) :
    (db.find? (fun s => s.email == email) = none →
      subscribePost isEmail db body f1 f2 newId now =
        ⟨db ++ [⟨newId, email, false, some f1, some f2, now, none, none⟩],
         201, .msgStatus "Almost there! Check your email to confirm your subscription."
           "pending_confirmation"⟩) ∧
    (∀ ex, db.find? (fun s => s.email == email) = some ex →
      ex.confirmed = true → ex.unsubAt = none →
      subscribePost isEmail db body f1 f2 newId now =
        ⟨db, 200, .msgStatus "You\x27re already subscribed! До скоро! (See you soon!)"
          "already_subscribed"⟩) ∧
    (∀ ex, db.find? (fun s => s.email == email) = some ex →
      ex.unsubAt ≠ none →
      (subscribePost isEmail db body f1 f2 newId now).db.find?
          (fun s => s.email == email) =
        some { ex with
        confirmed := false, confirmToken := some f1, unsubToken := some f2,
        unsubAt := none, confirmedAt := none } ∧
      (∀ s ∈ db, (s.email == email) = false →
        s ∈ (subscribePost isEmail db body f1 f2 newId now).db) ∧
      (subscribePost isEmail db body f1 f2 newId now).db.length = db.length ∧
      (subscribePost isEmail db body f1 f2 newId now).resp =
        ⟨200, .msgStatus "Welcome back! Please check your email to re-confirm."
          "resubscribed"⟩) ∧
    (∀ ex, db.find? (fun s => s.email == email) = some ex →
      ex.confirmed = false → ex.unsubAt = none →
      (subscribePost isEmail db body f1 f2 newId now).db.find?
          (fun s => s.email == email) =
        some { ex with confirmToken := some f1 } ∧
      (∀ s ∈ db, (s.email == email) = false →
        s ∈ (subscribePost isEmail db body f1 f2 newId now).db) ∧
      (subscribePost isEmail db body f1 f2 newId now).db.length = db.length ∧
      (subscribePost isEmail db body f1 f2 newId now).resp =
        ⟨200, .msgStatus "Confirmation email re-sent! Check your inbox."
          "confirmation_resent"⟩) :=
  ⟨fun hfind => subscribePost_caseD isEmail db body email f1 f2 newId now hval hfind,
   fun ex hfind hconf hunsub =>
     subscribePost_caseA isEmail db body email f1 f2 newId now hval ex hfind hconf hunsub,
   fun ex hfind hunsub =>
     subscribePost_caseB isEmail db body email f1 f2 newId now hval ex hfind hunsub,
   fun ex hfind hconf hunsub =>
     subscribePost_caseC isEmail db body email f1 f2 newId now hval ex hfind hconf hunsub⟩

/-- C2: a valid subscribe request for an email whose stored row has an
unsubscribe timestamp resets that row to pending: `confirmed` becomes
false, `confirmedAt` and `unsubAt` are cleared, and both tokens are
replaced by the freshly generated values. -/
theorem newsletter_resubscribe_resets_pending
    (isEmail : Str → Bool) (db : List NewsletterSub) (body : Option Str)
    (email f1 f2 : Str) (newId now : Nat)
    (hval : validateNewsletter isEmail body = .ok email)
    (ex : NewsletterSub)
    (hfind : db.find? (fun s => s.email == email) = some ex)
    (hunsub : ex.unsubAt ≠ none) :
    ∃ row, (subscribePost isEmail db body f1 f2 newId now).db.find?
        (fun s => s.email == email) = some row ∧
      row.confirmed = false ∧ row.confirmedAt = none ∧ row.unsubAt = none ∧
      row.confirmToken = some f1 ∧ row.unsubToken = some f2 ∧
      row.id = ex.id ∧ row.email = ex.email ∧ row.createdAt = ex.createdAt ∧
      (subscribePost isEmail db body f1 f2 newId now).resp =
        ⟨200, .msgStatus "Welcome back! Please check your email to re-confirm."
          "resubscribed"⟩ := by
  have h := subscribePost_caseB isEmail db body email f1 f2 newId now hval ex hfind hunsub
  exact ⟨_, h.1, rfl, rfl, rfl, rfl, rfl, rfl, rfl, rfl, h.2.2.2⟩

/-- Double update with an involutive rewrite is the identity. -/
theorem updateWhere_updateWhere_id (p : α → Bool) (f : α → α) (l : List α)
    (hpf : ∀ x, p (f x) = p x) (hff : ∀ x, p x = true → f (f x) = x) :
    updateWhere p f (updateWhere p f l) = l := by
  simp only [updateWhere, List.map_map]
  have hgg : ∀ x ∈ l,
      ((fun y => if p y then f y else y) ∘ (fun y => if p y then f y else y)) x = x := by
    intro x _
    by_cases hx : p x = true
    · simp [Function.comp, hx, hpf, hff x hx]
    · have hx' : p x = false := by simpa using hx
      simp [Function.comp, hx']
  rw [List.map_congr_left hgg]
  simp

/-- C4: with credentials configured and both fields supplied, a login with
a wrong username and a login with the right username but a password that
fails the bcrypt check produce the identical response: 401 with the same
generic `Invalid credentials.` body. -/
theorem login_failures_indistinguishable
    (bc : Str → Str → Bool) (cfg : AdminCfg)
    (hhash : cfg.passwordHash ≠ []) (hsecret : cfg.jwtSecret ≠ [])
    (u1 p1 u2 p2 : Str)
    (hu1 : u1 ≠ []) (hp1 : p1 ≠ []) (hu2 : u2 ≠ []) (hp2 : p2 ≠ [])
    (hwrongUser : jsLower u1 ≠ jsLower cfg.adminUsername)
    (hrightUser : jsLower u2 = jsLower cfg.adminUsername)
    (hwrongPass : bc p2 cfg.passwordHash = false) :
    login bc cfg u1 p1 = ⟨401, .errorMsg "Invalid credentials."⟩ ∧
    login bc cfg u2 p2 = ⟨401, .errorMsg "Invalid credentials."⟩ ∧
    login bc cfg u1 p1 = login bc cfg u2 p2 := by
  have hA : login bc cfg u1 p1 = ⟨401, .errorMsg "Invalid credentials."⟩ := by
    unfold login
    rw [if_neg (by simp [hhash, hsecret]), if_neg (by simp [hu1, hp1]),
      if_pos hwrongUser]
  have hB : login bc cfg u2 p2 = ⟨401, .errorMsg "Invalid credentials."⟩ := by
    unfold login
    rw [if_neg (by simp [hhash, hsecret]), if_neg (by simp [hu2, hp2]),
      if_neg (by simp [hrightUser]), if_neg (by simp [hwrongPass])]
  exact ⟨hA, hB, hA.trans hB.symm⟩

/-- C10: the username check lowercases both sides, so a login whose
username matches the configured admin username up to ASCII case behaves
exactly like a login with the configured username itself, for every
password. -/
theorem login_username_case_insensitive
    (bc : Str → Str → Bool) (cfg : AdminCfg) (hadmin : cfg.adminUsername ≠ [])
    (u p : Str) (hu : jsLower u = jsLower cfg.adminUsername) :
    login bc cfg u p = login bc cfg cfg.adminUsername p := by
  have hune : u ≠ [] := by
    intro h
    subst h
    apply hadmin
    have h0 : jsLower cfg.adminUsername = [] := by simpa [jsLower] using hu.symm
    simpa [jsLower] using h0
  unfold login
  by_cases hc : cfg.passwordHash = [] ∨ cfg.jwtSecret = []
  · rw [if_pos hc, if_pos hc]
  · rw [if_neg hc, if_neg hc]
    by_cases hp : p = []
    · rw [if_pos (show u = [] ∨ p = [] from Or.inr hp),
        if_pos (show cfg.adminUsername = [] ∨ p = [] from Or.inr hp)]
    · have h3L : ¬(jsLower u ≠ jsLower cfg.adminUsername) := by simpa using hu
      have h3R : ¬(jsLower cfg.adminUsername ≠ jsLower cfg.adminUsername) := by simp
      rw [if_neg (show ¬(u = [] ∨ p = []) by simp [hune, hp]),
        if_neg (show ¬(cfg.adminUsername = [] ∨ p = []) by simp [hadmin, hp]),
        if_neg h3L, if_neg h3R]

/-- The toggle handler on a database where the entry is found. -/
theorem adminGuestbookToggle_of_find (db : List GuestbookEntry) (id : Nat)
    (e : GuestbookEntry) (hfind : db.find? (fun x => x.id == id) = some e) :
    adminGuestbookToggle db id =
      ⟨updateWhere (fun x => x.id == id) (fun x => { x with visible := !x.visible }) db,
       200, .toggleObj e.id e.name (!e.visible)
         (if !e.visible then "Entry is now visible." else "Entry is now hidden.")⟩ := by
  simp [adminGuestbookToggle, hfind]

/-- C5: toggling an existing guestbook entry's visibility flips the flag
and reports the new state; toggling twice restores the database exactly,
the second response reporting the restored state. -/
theorem guestbook_toggle_involution
    (db : List GuestbookEntry) (id : Nat) (e : GuestbookEntry)
    (hfind : db.find? (fun x => x.id == id) = some e) :
    (adminGuestbookToggle db id).resp =
      ⟨200, .toggleObj e.id e.name (!e.visible)
        (if !e.visible then "Entry is now visible." else "Entry is now hidden.")⟩ ∧
    (adminGuestbookToggle db id).db.find? (fun x => x.id == id) =
      some { e with visible := !e.visible } ∧
    (adminGuestbookToggle (adminGuestbookToggle db id).db id).db = db ∧
    (adminGuestbookToggle (adminGuestbookToggle db id).db id).resp =
      ⟨200, .toggleObj e.id e.name e.visible
        (if e.visible then "Entry is now visible." else "Entry is now hidden.")⟩ := by
  have h1 := adminGuestbookToggle_of_find db id e hfind
  have hfind2 : (adminGuestbookToggle db id).db.find? (fun x => x.id == id) =
      some { e with visible := !e.visible } := by
    rw [h1]
    rw [find?_updateWhere (fun x : GuestbookEntry => x.id == id)
      (fun x => { x with visible := !x.visible }) db (fun x => rfl), hfind]
    rfl
  have h2 := adminGuestbookToggle_of_find (adminGuestbookToggle db id).db id
    { e with visible := !e.visible } hfind2
  refine ⟨by rw [h1], hfind2, ?_, ?_⟩
  · rw [h2]
    show updateWhere (fun x : GuestbookEntry => x.id == id)
        (fun x => { x with visible := !x.visible }) (adminGuestbookToggle db id).db = db
    rw [h1]
    exact updateWhere_updateWhere_id _ _ db (fun x => rfl) (fun x _ => by simp)
  · rw [h2]
    simp [Bool.not_not]

/-- The guestbook rows carried by a response body: the rows of a list
response, the single entry of a created-entry response, nothing else. -/
def rowsOf : Body → List (List (String × JVal))
  | .rows r => r
  | .entryObj e => [e]
  | _ => []

/-- C3 (amended): the public guestbook responses (`GET /api/guestbook` and
the `POST /api/guestbook` reply) never carry an `ipHash` key, but the
admin-only `GET /api/admin/guestbook` includes `ipHash` in every row. -/
theorem guestbook_ipHash_exposure :
    (∀ db : List GuestbookEntry, ∀ row ∈ rowsOf (guestbookGet db).resp.body,
      "ipHash" ∉ row.map Prod.fst) ∧
    (∀ (db : List GuestbookEntry) (b : GuestbookBody) (ipH : Str) (nid now : Nat),
      ∀ row ∈ rowsOf (guestbookPost db b ipH nid now).resp.body,
      "ipHash" ∉ row.map Prod.fst) ∧
    (∀ db : List GuestbookEntry, ∀ row ∈ rowsOf (adminGuestbookGet db).resp.body,
      "ipHash" ∈ row.map Prod.fst) := by
  refine ⟨?_, ?_, ?_⟩
  · intro db row hrow
    simp only [guestbookGet, rowsOf] at hrow
    obtain ⟨e, _, rfl⟩ := List.mem_map.mp hrow
    simp [publicEntryJson]
  · intro db b ipH nid now row hrow
    cases hv : validateGuestbook b with
    | error e =>
      simp [guestbookPost, hv, rowsOf] at hrow
    | ok d =>
      simp only [guestbookPost, hv, rowsOf, List.mem_singleton] at hrow
      subst hrow
      simp [publicEntryJson]
  · intro db row hrow
    simp only [adminGuestbookGet, rowsOf] at hrow
    obtain ⟨e, _, rfl⟩ := List.mem_map.mp hrow
    simp [adminEntryJson]

/-- C3 (counterexample): on a one-entry database the admin guestbook
listing does expose `ipHash`, so the claim that no endpoint returning
guestbook data ever includes it is false. -/
theorem guestbook_ipHash_admin_counterexample :
    ¬ (∀ row ∈ rowsOf (adminGuestbookGet
        [⟨1, "a".toList, "m".toList, "h".toList, true, 0⟩]).resp.body,
      "ipHash" ∉ row.map Prod.fst) := by
  decide

/-- C9: the newsletter schema lowercases the email before the handler
looks anything up, so two subscribe requests whose raw emails agree up to
ASCII letter case validate identically and produce the very same outcome
(same branch, same response, same database) — provided the email
acceptance set itself ignores ASCII case, as Zod's case-insensitive email
regex does. -/
theorem subscribe_email_case_insensitive
    (isEmail : Str → Bool) (hins : ∀ s, isEmail (jsLower s) = isEmail s)
    (db : List NewsletterSub) (s1 s2 : Str) (hcase : jsLower s1 = jsLower s2)
    (f1 f2 : Str) (newId now : Nat) :
    validateNewsletter isEmail (some s1) = validateNewsletter isEmail (some s2) ∧
    subscribePost isEmail db (some s1) f1 f2 newId now =
      subscribePost isEmail db (some s2) f1 f2 newId now := by
  have htrim := jsTrim_lower_eq_of_lower_eq hcase
  have hisem : isEmail (jsTrim s1) = isEmail (jsTrim s2) := by
    rw [← hins (jsTrim s1), ← hins (jsTrim s2), htrim]
  have hlen : (jsTrim s1).length = (jsTrim s2).length := by
    rw [← length_jsLower (jsTrim s1), ← length_jsLower (jsTrim s2), htrim]
  have hval : validateNewsletter isEmail (some s1) =
      validateNewsletter isEmail (some s2) := by
    simp only [validateNewsletter, newsletterIssues, fieldIssues, emailIssues,
      Option.getD, hisem, hlen, htrim]
  refine ⟨hval, ?_⟩
  unfold subscribePost
  rw [hval]

/-- A failed validation result carries exactly the flattened issue list. -/
theorem error_of_validate {β : Type} (issues : List Issue) (d : β) (e : List Issue)
    (h : (if issues = [] then Except.ok d
          else Except.error (flattenIssues issues)) = Except.error e) :
    e = flattenIssues issues ∧ issues ≠ [] := by
  by_cases hi : issues = []
  · simp [hi] at h
  · rw [if_neg hi] at h
    injection h with h1
    exact ⟨h1.symm, hi⟩

/-- C6: when a body fails its Zod schema, each of the three public write
endpoints answers 400 with the flattened `{ field: message }` object —
which holds the (last) message of every offending field and no others —
and leaves the database untouched. -/
theorem validation_failure_400_no_write
    (isEmail : Str → Bool)
    (gdb : List GuestbookEntry) (ndb : List NewsletterSub) (cdb : List ContactMessage)
    (gb : GuestbookBody) (nb : Option Str) (cb : ContactBody)
    (ipH f1 f2 : Str) (gid nid cid gnow nnow cnow : Nat) :
    (∀ e, validateGuestbook gb = .error e →
      guestbookPost gdb gb ipH gid gnow = ⟨gdb, 400, .fieldErrors e⟩ ∧
      (∀ k, lookupKey e k = lastValue (guestbookIssues gb) k) ∧
      (∀ k, (lookupKey e k).isSome ↔ k ∈ (guestbookIssues gb).map Prod.fst)) ∧
    (∀ e, validateNewsletter isEmail nb = .error e →
      subscribePost isEmail ndb nb f1 f2 nid nnow = ⟨ndb, 400, .fieldErrors e⟩ ∧
      (∀ k, lookupKey e k = lastValue (newsletterIssues isEmail nb) k) ∧
      (∀ k, (lookupKey e k).isSome ↔ k ∈ (newsletterIssues isEmail nb).map Prod.fst)) ∧
    (∀ e, validateContact isEmail cb = .error e →
      contactPost isEmail cdb cb cid cnow = ⟨cdb, 400, .fieldErrors e⟩ ∧
      (∀ k, lookupKey e k = lastValue (contactIssues isEmail cb) k) ∧
      (∀ k, (lookupKey e k).isSome ↔ k ∈ (contactIssues isEmail cb).map Prod.fst)) := by
  refine ⟨?_, ?_, ?_⟩
  · intro e hv
    have hv2 := hv
    unfold validateGuestbook at hv2
    obtain ⟨he, -⟩ := error_of_validate _ _ _ hv2
    refine ⟨by simp [guestbookPost, hv], ?_, ?_⟩
    · intro k
      rw [he, lookupKey_flattenIssues]
    · intro k
      rw [he]
      exact lookupKey_flattenIssues_isSome _ _
  · intro e hv
    have hv2 := hv
    unfold validateNewsletter at hv2
    obtain ⟨he, -⟩ := error_of_validate _ _ _ hv2
    refine ⟨by simp [subscribePost, hv], ?_, ?_⟩
    · intro k
      rw [he, lookupKey_flattenIssues]
    · intro k
      rw [he]
      exact lookupKey_flattenIssues_isSome _ _
  · intro e hv
    have hv2 := hv
    unfold validateContact at hv2
    obtain ⟨he, -⟩ := error_of_validate _ _ _ hv2
    refine ⟨by simp [contactPost, hv], ?_, ?_⟩
    · intro k
      rw [he, lookupKey_flattenIssues]
    · intro k
      rw [he]
      exact lookupKey_flattenIssues_isSome _ _

/-- C7: the five limiter configurations are the fixed windows and caps the
spec names (login 5 per 15 min, guestbook 3 per hour, newsletter 5 per
hour, contact 3 per hour, general 100 per 15 min), and under any of these
configurations the requests of one IP inside one window pass through to
the handler up to the cap while every request beyond the cap — in
particular the (N+1)th — is answered by the limiter's own message. -/
theorem rate_limiter_window_cap :
    loginLimiter = ⟨15 * 60 * 1000, 5,
      "Too many login attempts. Try again in 15 minutes."⟩ ∧
    guestbookWriteLimiter = ⟨60 * 60 * 1000, 3,
      "You\x27ve signed the guestbook recently. Come back in a bit!"⟩ ∧
    newsletterLimiter = ⟨60 * 60 * 1000, 5,
      "Too many subscribe attempts. Please try again later."⟩ ∧
    contactLimiter = ⟨60 * 60 * 1000, 3,
      "You\x27ve sent a few messages already. I\x27ll get back to you soon!"⟩ ∧
    generalLimiter = ⟨15 * 60 * 1000, 100,
      "Too many requests. Please try again in a few minutes."⟩ ∧
    ∀ (cfg : LimiterCfg) (st : LimiterState) (ip : String) (t0 : Nat) (ts : List Nat),
      lookupIp st ip = none →
      (∀ t ∈ ts, t0 ≤ t ∧ t < t0 + cfg.windowMs) →
      runHits cfg st ip ts =
        (List.range ts.length).map
          (fun i => if i + 1 ≤ cfg.max then none else some (429, cfg.message)) :=
  ⟨rfl, rfl, rfl, rfl, rfl, runHits_fresh⟩

/-- The invariant: a confirmed subscriber row holds no confirm token. -/
def subInv (db : List NewsletterSub) : Prop :=
  ∀ s ∈ db, s.confirmed = true → s.confirmToken = none

theorem subscribePost_preserves_subInv
    (isEmail : Str → Bool) (db : List NewsletterSub) (body : Option Str)
    (f1 f2 : Str) (newId now : Nat)
    (huniq : emailsUnique db) (hinv : subInv db) :
    subInv (subscribePost isEmail db body f1 f2 newId now).db := by
  cases hval : validateNewsletter isEmail body with
  | error e =>
    simp only [subscribePost, hval]
    exact hinv
  | ok email =>
    cases hfind : db.find? (fun s => s.email == email) with
    | none =>
      simp only [subscribePost, hval, hfind]
      intro s hs
      rcases List.mem_append.mp hs with h | h
      · exact hinv s h
      · rw [List.mem_singleton.mp h]
        intro hconf
        cases hconf
    | some ex =>
      simp only [subscribePost, hval, hfind]
      by_cases hA : (ex.confirmed && ex.unsubAt.isNone) = true
      · rw [if_pos hA]
        exact hinv
      · rw [if_neg (by simp [hA])]
        by_cases hB : ex.unsubAt.isSome = true
        · rw [if_pos hB]
          intro s hs
          obtain ⟨x, hx, rfl⟩ := mem_updateWhere _ _ _ s hs
          by_cases hp : (x.email == email) = true
          · simp [hp]
          · simp only [hp, Bool.false_eq_true, if_false]
            exact hinv x hx
        · rw [if_neg (by simp [hB])]
          by_cases hC : (!ex.confirmed) = true
          · rw [if_pos hC]
            intro s hs
            obtain ⟨x, hx, rfl⟩ := mem_updateWhere _ _ _ s hs
            by_cases hp : (x.email == email) = true
            · have hexmem := List.mem_of_find?_eq_some hfind
              have hexpred := List.find?_some hfind
              have hxe : x = ex := by
                apply huniq x hx ex hexmem
                have h1 : x.email = email := by simpa using hp
                have h2 : ex.email = email := by simpa using hexpred
                rw [h1, h2]
              subst hxe
              have hconf : x.confirmed = false := by simpa using hC
              simp [hp, hconf]
            · simp only [hp, Bool.false_eq_true, if_false]
              exact hinv x hx
          · rw [if_neg (by simp [hC])]
            intro s hs
            rcases List.mem_append.mp hs with h | h
            · exact hinv s h
            · rw [List.mem_singleton.mp h]
              intro hconf
              cases hconf

theorem confirmGet_preserves_subInv (db : List NewsletterSub) (tok : Str)
    (now : Nat) (hinv : subInv db) : subInv (confirmGet db tok now).db := by
  cases hf : db.find? (fun s => s.confirmToken == some tok && !s.confirmed) with
  | none =>
    simp only [confirmGet, hf]
    exact hinv
  | some sub =>
    simp only [confirmGet, hf]
    intro s hs
    obtain ⟨x, hx, rfl⟩ := mem_updateWhere _ _ _ s hs
    by_cases hp : (x.id == sub.id) = true
    · simp [hp]
    · simp only [hp, Bool.false_eq_true, if_false]
      exact hinv x hx

theorem unsubDelete_preserves_subInv (db : List NewsletterSub) (tok : Str)
    (now : Nat) (hinv : subInv db) : subInv (unsubDelete db tok now).db := by
  cases hf : db.find? (fun s => s.unsubToken == some tok && s.unsubAt.isNone) with
  | none =>
    simp only [unsubDelete, hf]
    exact hinv
  | some sub =>
    simp only [unsubDelete, hf]
    intro s hs
    obtain ⟨x, hx, rfl⟩ := mem_updateWhere _ _ _ s hs
    by_cases hp : (x.id == sub.id) = true
    · simp only [hp, if_true]
      intro hconf
      have := hinv x hx hconf
      simpa using this
    · simp only [hp, Bool.false_eq_true, if_false]
      exact hinv x hx

theorem confirmGet_of_find_none (db : List NewsletterSub) (tok : Str) (now : Nat)
    (h : db.find? (fun s => s.confirmToken == some tok && !s.confirmed) = none) :
    confirmGet db tok now =
      ⟨db, 404, .errorMsg "Invalid or expired confirmation link."⟩ := by
  simp [confirmGet, h]

theorem confirmGet_single_use (db : List NewsletterSub) (tok : Str)
    (now now' : Nat) (hone : confirmTokenAtMostOne db tok)
    (hok : (confirmGet db tok now).resp.status = 200) :
    confirmGet (confirmGet db tok now).db tok now' =
      ⟨(confirmGet db tok now).db, 404,
       .errorMsg "Invalid or expired confirmation link."⟩ := by
  cases hf : db.find? (fun s => s.confirmToken == some tok && !s.confirmed) with
  | none =>
    rw [show confirmGet db tok now =
        ⟨db, 404, .errorMsg "Invalid or expired confirmation link."⟩ from by
      simp [confirmGet, hf]] at hok
    cases hok
  | some sub =>
    have hsubmem := List.mem_of_find?_eq_some hf
    have hsubpred := List.find?_some hf
    have hsubtok : sub.confirmToken = some tok := by
      have := (Bool.and_eq_true _ _).mp hsubpred
      simpa using this.1
    have hdb1 : (confirmGet db tok now).db =
        updateWhere (fun s => s.id == sub.id)
          (fun s => { s with confirmed := true, confirmedAt := some now,
                             confirmToken := none }) db := by
      simp [confirmGet, hf]
    have hnone : (confirmGet db tok now).db.find?
        (fun s => s.confirmToken == some tok && !s.confirmed) = none := by
      rw [hdb1, List.find?_eq_none]
      intro y hy
      obtain ⟨x, hx, rfl⟩ := mem_updateWhere _ _ _ y hy
      by_cases hp : (x.id == sub.id) = true
      · simp [hp]
      · simp only [hp, Bool.false_eq_true, if_false]
        intro hpred
        have hxtok : x.confirmToken = some tok := by
          have := (Bool.and_eq_true _ _).mp hpred
          simpa using this.1
        have hxe : x = sub := hone x hx sub hsubmem hxtok hsubtok
        subst hxe
        simp at hp
    exact confirmGet_of_find_none _ tok now' hnone

/-- C8: every newsletter operation preserves the invariant that a
confirmed row carries no confirm token; and because a successful
confirmation clears the token, a second `GET /confirm/:token` with the
same token matches no unconfirmed row, returns 404 and leaves the
database unchanged — each confirm token is single-use. -/
theorem confirm_token_single_use :
    (∀ (isEmail : Str → Bool) (db : List NewsletterSub) (body : Option Str)
        (f1 f2 : Str) (newId now : Nat), emailsUnique db → subInv db →
      subInv (subscribePost isEmail db body f1 f2 newId now).db) ∧
    (∀ (db : List NewsletterSub) (tok : Str) (now : Nat), subInv db →
      subInv (confirmGet db tok now).db) ∧
    (∀ (db : List NewsletterSub) (tok : Str) (now : Nat), subInv db →
      subInv (unsubDelete db tok now).db) ∧
    (∀ (db : List NewsletterSub) (tok : Str) (now now' : Nat),
      confirmTokenAtMostOne db tok → (confirmGet db tok now).resp.status = 200 →
      confirmGet (confirmGet db tok now).db tok now' =
        ⟨(confirmGet db tok now).db, 404,
         .errorMsg "Invalid or expired confirmation link."⟩) :=
  ⟨fun isEmail db body f1 f2 newId now huniq hinv =>
     subscribePost_preserves_subInv isEmail db body f1 f2 newId now huniq hinv,
   fun db tok now hinv => confirmGet_preserves_subInv db tok now hinv,
   fun db tok now hinv => unsubDelete_preserves_subInv db tok now hinv,
   fun db tok now now' hone hok => confirmGet_single_use db tok now now' hone hok⟩

/-! ## Concrete witnesses -/

theorem newsletter_subscribe_four_branches_witness :
    subscribePost (fun s => s.contains '@') [] (some ("x@y.z".toList))
        ("t1".toList) ("t2".toList) 1 5 =
      ⟨[⟨1, "x@y.z".toList, false, some ("t1".toList), some ("t2".toList), 5, none, none⟩],
       201, .msgStatus "Almost there! Check your email to confirm your subscription."
         "pending_confirmation"⟩ :=
  (newsletter_subscribe_four_branches (fun s => s.contains '@') []
    (some ("x@y.z".toList)) ("x@y.z".toList) ("t1".toList) ("t2".toList) 1 5
    (by rfl)).1 (by rfl)

theorem newsletter_resubscribe_resets_pending_witness :
    ∃ row, (subscribePost (fun s => s.contains '@')
        [⟨1, "x@y.z".toList, false, some ("a".toList), some ("b".toList), 0, none, some 9⟩]
        (some ("x@y.z".toList)) ("t1".toList) ("t2".toList) 2 5).db.find?
        (fun s => s.email == "x@y.z".toList) = some row ∧
      row.confirmed = false ∧ row.confirmedAt = none ∧ row.unsubAt = none ∧
      row.confirmToken = some ("t1".toList) ∧ row.unsubToken = some ("t2".toList) ∧
      row.id = 1 ∧ row.email = "x@y.z".toList ∧ row.createdAt = 0 ∧
      (subscribePost (fun s => s.contains '@')
        [⟨1, "x@y.z".toList, false, some ("a".toList), some ("b".toList), 0, none, some 9⟩]
        (some ("x@y.z".toList)) ("t1".toList) ("t2".toList) 2 5).resp =
        ⟨200, .msgStatus "Welcome back! Please check your email to re-confirm."
          "resubscribed"⟩ :=
  newsletter_resubscribe_resets_pending (fun s => s.contains '@')
    [⟨1, "x@y.z".toList, false, some ("a".toList), some ("b".toList), 0, none, some 9⟩]
    (some ("x@y.z".toList)) ("x@y.z".toList) ("t1".toList) ("t2".toList) 2 5 (by rfl)
    ⟨1, "x@y.z".toList, false, some ("a".toList), some ("b".toList), 0, none, some 9⟩
    (by rfl) (by decide)

theorem guestbook_ipHash_exposure_witness :
    "ipHash" ∉ (publicEntryJson ⟨1, "a".toList, "m".toList, "h".toList, true, 0⟩).map
      Prod.fst ∧
    "ipHash" ∈ (adminEntryJson ⟨1, "a".toList, "m".toList, "h".toList, true, 0⟩).map
      Prod.fst :=
  ⟨guestbook_ipHash_exposure.1 [⟨1, "a".toList, "m".toList, "h".toList, true, 0⟩]
     (publicEntryJson ⟨1, "a".toList, "m".toList, "h".toList, true, 0⟩) (by decide),
   guestbook_ipHash_exposure.2.2 [⟨1, "a".toList, "m".toList, "h".toList, true, 0⟩]
     (adminEntryJson ⟨1, "a".toList, "m".toList, "h".toList, true, 0⟩) (by decide)⟩

theorem login_failures_indistinguishable_witness :
    login (fun p h => p == h) ⟨"admin".toList, "hash".toList, "sec".toList, "8h"⟩
        ("bob".toList) ("pw".toList) =
      ⟨401, .errorMsg "Invalid credentials."⟩ ∧
    login (fun p h => p == h) ⟨"admin".toList, "hash".toList, "sec".toList, "8h"⟩
        ("Admin".toList) ("pw".toList) =
      ⟨401, .errorMsg "Invalid credentials."⟩ ∧
    login (fun p h => p == h) ⟨"admin".toList, "hash".toList, "sec".toList, "8h"⟩
        ("bob".toList) ("pw".toList) =
      login (fun p h => p == h) ⟨"admin".toList, "hash".toList, "sec".toList, "8h"⟩
        ("Admin".toList) ("pw".toList) :=
  login_failures_indistinguishable (fun p h => p == h)
    ⟨"admin".toList, "hash".toList, "sec".toList, "8h"⟩
    (by decide) (by decide) ("bob".toList) ("pw".toList) ("Admin".toList) ("pw".toList)
    (by decide) (by decide) (by decide) (by decide) (by decide) (by decide) (by decide)

theorem guestbook_toggle_involution_witness :
    (adminGuestbookToggle [⟨1, "a".toList, "m".toList, "h".toList, true, 0⟩] 1).resp =
      ⟨200, .toggleObj 1 ("a".toList) false "Entry is now hidden."⟩ ∧
    (adminGuestbookToggle [⟨1, "a".toList, "m".toList, "h".toList, true, 0⟩] 1).db.find?
        (fun x => x.id == 1) =
      some ⟨1, "a".toList, "m".toList, "h".toList, false, 0⟩ ∧
    (adminGuestbookToggle (adminGuestbookToggle
        [⟨1, "a".toList, "m".toList, "h".toList, true, 0⟩] 1).db 1).db =
      [⟨1, "a".toList, "m".toList, "h".toList, true, 0⟩] ∧
    (adminGuestbookToggle (adminGuestbookToggle
        [⟨1, "a".toList, "m".toList, "h".toList, true, 0⟩] 1).db 1).resp =
      ⟨200, .toggleObj 1 ("a".toList) true "Entry is now visible."⟩ :=
  guestbook_toggle_involution [⟨1, "a".toList, "m".toList, "h".toList, true, 0⟩] 1
    ⟨1, "a".toList, "m".toList, "h".toList, true, 0⟩ (by rfl)

theorem validation_failure_400_no_write_witness :
    guestbookPost [] ⟨some ("<b>".toList), some (" ".toList)⟩ ("h".toList) 1 0 =
      ⟨[], 400, .fieldErrors [("name", "Name contains invalid characters"),
        ("message", "Message is required")]⟩ ∧
    subscribePost (fun s => s.contains '@') [] (some ("bad".toList))
        ("t1".toList) ("t2".toList) 1 0 =
      ⟨[], 400, .fieldErrors [("email", "Please provide a valid email address")]⟩ ∧
    contactPost (fun s => s.contains '@') []
        ⟨some ("".toList), some ("a@b.c".toList), some ("s".toList), some ("m".toList)⟩
        1 0 =
      ⟨[], 400, .fieldErrors [("name", "Name is required")]⟩ :=
  ⟨((validation_failure_400_no_write (fun s => s.contains '@') [] [] []
      ⟨some ("<b>".toList), some (" ".toList)⟩ (some ("bad".toList))
      ⟨some ("".toList), some ("a@b.c".toList), some ("s".toList), some ("m".toList)⟩
      ("h".toList) ("t1".toList) ("t2".toList) 1 1 1 0 0 0).1
    [("name", "Name contains invalid characters"), ("message", "Message is required")]
    (by rfl)).1,
   ((validation_failure_400_no_write (fun s => s.contains '@') [] [] []
      ⟨some ("<b>".toList), some (" ".toList)⟩ (some ("bad".toList))
      ⟨some ("".toList), some ("a@b.c".toList), some ("s".toList), some ("m".toList)⟩
      ("h".toList) ("t1".toList) ("t2".toList) 1 1 1 0 0 0).2.1
    [("email", "Please provide a valid email address")] (by rfl)).1,
   ((validation_failure_400_no_write (fun s => s.contains '@') [] [] []
      ⟨some ("<b>".toList), some (" ".toList)⟩ (some ("bad".toList))
      ⟨some ("".toList), some ("a@b.c".toList), some ("s".toList), some ("m".toList)⟩
      ("h".toList) ("t1".toList) ("t2".toList) 1 1 1 0 0 0).2.2
    [("name", "Name is required")] (by rfl)).1⟩

theorem rate_limiter_window_cap_witness :
    runHits guestbookWriteLimiter [] "1.2.3.4" [0, 1, 2, 3] =
      (List.range [0, 1, 2, 3].length).map
        (fun i => if i + 1 ≤ guestbookWriteLimiter.max then none
          else some (429, guestbookWriteLimiter.message)) :=
  rate_limiter_window_cap.2.2.2.2.2 guestbookWriteLimiter [] "1.2.3.4" 0 [0, 1, 2, 3]
    (by rfl) (by decide)

theorem confirm_token_single_use_witness :
    confirmGet (confirmGet
        [⟨1, "e".toList, false, some ("t".toList), some ("u".toList), 0, none, none⟩]
        ("t".toList) 7).db ("t".toList) 8 =
      ⟨(confirmGet
          [⟨1, "e".toList, false, some ("t".toList), some ("u".toList), 0, none, none⟩]
          ("t".toList) 7).db, 404,
       .errorMsg "Invalid or expired confirmation link."⟩ :=
  confirm_token_single_use.2.2.2
    [⟨1, "e".toList, false, some ("t".toList), some ("u".toList), 0, none, none⟩]
    ("t".toList) 7 8 (by unfold confirmTokenAtMostOne; decide) (by rfl)

theorem subscribe_email_case_insensitive_witness :
    validateNewsletter (fun _ => true) (some ("A@b".toList)) =
      validateNewsletter (fun _ => true) (some ("a@B".toList)) ∧
    subscribePost (fun _ => true) [] (some ("A@b".toList)) ("t1".toList)
        ("t2".toList) 1 0 =
      subscribePost (fun _ => true) [] (some ("a@B".toList)) ("t1".toList)
        ("t2".toList) 1 0 :=
  subscribe_email_case_insensitive (fun _ => true) (fun s => rfl) []
    ("A@b".toList) ("a@B".toList) (by rfl) ("t1".toList) ("t2".toList) 1 0

theorem login_username_case_insensitive_witness :
    login (fun p h => p == h) ⟨"admin".toList, "hash".toList, "sec".toList, "8h"⟩
        ("ADMIN".toList) ("pw".toList) =
      login (fun p h => p == h) ⟨"admin".toList, "hash".toList, "sec".toList, "8h"⟩
        ("admin".toList) ("pw".toList) :=
  login_username_case_insensitive (fun p h => p == h)
    ⟨"admin".toList, "hash".toList, "sec".toList, "8h"⟩ (by decide)
    ("ADMIN".toList) ("pw".toList) (by rfl)

end Portfolio
